import Mathlib

/-!
Verification development for the energy-risk dashboard
(src/dashboardBetav1.py).  The Python program is shallowly embedded:
pandas DataFrames become association lists of named columns of values,
floats become rationals, the external survival-statistics library
(lifelines) and the random generator become explicit function
parameters, and fallible operations return Except/Option.
-/

namespace EnergyRisk

/-- A cell value of the tabular dataset: a number (Python int/float are
both modelled as rationals), a string, or a boolean. -/
inductive Value where
  | num (q : ℚ)
  | str (s : String)
  | bool (b : Bool)
deriving DecidableEq, Repr

/-- The pandas dtype of a column, at the granularity the program
inspects it: numeric (int/float), native boolean, or object. -/
inductive Dtype where
  | numeric
  | boolean
  | object
deriving DecidableEq, Repr

/-- One column of a DataFrame: its dtype and its cell values. -/
structure Column where
  dtype : Dtype
  vals : List Value
deriving DecidableEq, Repr

/-- A pandas DataFrame: an ordered association list of named columns. -/
structure DataFrame where
  cols : List (String × Column)
deriving DecidableEq, Repr

/-- Column lookup by name (first match, as column names are unique). -/
def lookupCol : List (String × Column) → String → Option Column
  | [], _ => none
  | p :: t, n => if p.1 = n then some p.2 else lookupCol t n

/-- Column assignment: replace the named column in place, or append it
at the end if absent (pandas column-assignment semantics). -/
def setColList : List (String × Column) → String → Column → List (String × Column)
  | [], n, c => [(n, c)]
  | p :: t, n, c => if p.1 = n then (n, c) :: t else p :: setColList t n c

/-- Drop the named column. -/
def dropColList : List (String × Column) → String → List (String × Column)
  | [], _ => []
  | p :: t, n => if p.1 = n then dropColList t n else p :: dropColList t n

def DataFrame.getCol (df : DataFrame) (n : String) : Option Column :=
  lookupCol df.cols n

def DataFrame.setCol (df : DataFrame) (n : String) (c : Column) : DataFrame :=
  ⟨setColList df.cols n c⟩

def DataFrame.dropCol (df : DataFrame) (n : String) : DataFrame :=
  ⟨dropColList df.cols n⟩

def DataFrame.hasCol (df : DataFrame) (n : String) : Bool :=
  (df.getCol n).isSome

def DataFrame.colNames (df : DataFrame) : List String :=
  df.cols.map Prod.fst

/-- Number of rows (length of the first column, zero for an empty frame). -/
def DataFrame.nrows (df : DataFrame) : Nat :=
  match df.cols with
  | [] => 0
  | p :: _ => p.2.vals.length

/-- The cell at row i of the named column (defaulting where the source
would be guaranteed presence by its load-time schema check). -/
def cellAt (df : DataFrame) (n : String) (i : Nat) : Value :=
  match df.getCol n with
  | none => Value.num 0
  | some c => c.vals.getD i (Value.num 0)

/-- Python str() of a cell value.  Exact float formatting is abstracted
to the rational's canonical rendering. -/
def Value.toStr : Value → String
  | .num q => toString q
  | .str s => s
  | .bool b => if b then "True" else "False"

/-- Numeric reading of a cell (float(True) is 1.0 in Python; a
non-numeric string has no numeric reading and is modelled as 0 where
the source is guaranteed a numeric column). -/
def valueToRat : Value → ℚ
  | .num q => q
  | .str _ => 0
  | .bool b => if b then 1 else 0

/-- The named column read as rationals (empty if the column is absent). -/
def DataFrame.colRats (df : DataFrame) (n : String) : List ℚ :=
  match df.getCol n with
  | none => []
  | some c => c.vals.map valueToRat

/-- DURATION_COL from the source. -/
def DURATION_COL : String := "тривалість"

/-- EVENT_COL from the source. -/
def EVENT_COL : String := "подія"

/-- FEATURE_COLUMNS from the source: the seven covariates. -/
def FEATURE_COLUMNS : List String :=
  ["навантаження_мвт", "потужність_мвт", "завантаженість",
   "температура_с", "вітер_м_с", "свято", "вік_років"]

/-- The required columns checked at load time. -/
def requiredCols : List String := [DURATION_COL, EVENT_COL] ++ FEATURE_COLUMNS

/-- ensure_columns (source lines 22-25): collect the required columns
absent from the frame and raise a ValueError naming the missing columns
and the columns actually present; succeed silently otherwise. -/
def ensure_columns (df : DataFrame) (required : List String) :
    Except (List String × List String) Unit :=
  let missing := required.filter (fun c => !df.hasCol c)
  if missing.isEmpty then Except.ok () else Except.error (missing, df.colNames)

/-- Median survival time (source lines 264-271): the first time point,
in the curve's order, whose survival probability is at most one half
(the numpy boolean mask plus argmax-of-first-True); none when the curve
never reaches one half.  The threshold 0.5 is written mkRat 1 2. -/
def median_survival_time : List (ℚ × ℚ) → Option ℚ
  | [] => none
  | p :: t => if p.2 ≤ mkRat 1 2 then some p.1 else median_survival_time t

/-- The three risk buckets shown by the risk label. -/
inductive RiskLevel where
  | low
  | moderate
  | high
deriving DecidableEq, Repr

/-- Risk bucketing of the partial hazard (source lines 342-347):
below 0.8 is low, from 0.8 below 1.2 is moderate, from 1.2 on is high.
The source's literals 0.8 and 1.2 are written mkRat 8 10 and
mkRat 12 10. -/
def risk_bucket (x : ℚ) : RiskLevel :=
  if x < mkRat 8 10 then RiskLevel.low
  else if x < mkRat 12 10 then RiskLevel.moderate
  else RiskLevel.high

/-- Minimum of a list of rationals (0 for the empty list, which the
source never hits because the load column is nonempty). -/
def listMin : List ℚ → ℚ
  | [] => 0
  | a :: t => t.foldl min a

/-- Maximum of a list of rationals. -/
def listMax : List ℚ → ℚ
  | [] => 0
  | a :: t => t.foldl max a

/-- Normalized load percentage (source lines 349-358): linear rescale of
the record's load between the dataset's min and max load, 0 when the
range is degenerate, clamped to the interval from 0 to 100. -/
def normalized_load (x : ℚ) (loads : List ℚ) : ℚ :=
  let mn := listMin loads
  let mx := listMax loads
  let pct := if mn < mx then (x - mn) / (mx - mn) * 100 else 0
  max 0 (min 100 pct)

/-- Python int() applied to a cell value: floats truncate toward zero,
booleans map to 0/1, strings parse as optionally signed integers
(non-integer text fails, giving none). -/
def pyIntOfValue : Value → Option Int
  | .num q => some (if q < 0 then -(Rat.floor (-q)) else Rat.floor q)
  | .bool b => some (if b then 1 else 0)
  | .str s => s.trim.toInt?

/-- Python int() over a list of cells, failing when any cell fails. -/
def pyIntsOfVals : List Value → Option (List Int)
  | [] => some []
  | v :: t =>
    match pyIntOfValue v, pyIntsOfVals t with
    | some i, some is => some (i :: is)
    | _, _ => none

/-- pandas astype(int) on a column: convert every cell via Python int(),
failing when any cell does not convert. -/
def Column.astypeInt (c : Column) : Option Column :=
  (pyIntsOfVals c.vals).map
    (fun is => ⟨Dtype.numeric, is.map (fun i => Value.num (i : ℚ))⟩)

/-- One row of the fitted model's coefficient table. -/
structure Coeff where
  name : String
  hr : ℚ
  ciLow : ℚ
  ciHigh : ℚ
deriving DecidableEq, Repr

/-- The capability surface of a fitted Cox model (the external lifelines
estimator): curve and scalar predictions for a covariate row, and the
coefficient summary table. -/
structure FittedModel where
  predictSurvival : List ℚ → List (ℚ × ℚ)
  predictCumHazard : List ℚ → List (ℚ × ℚ)
  predictPartialHazard : List ℚ → ℚ
  summary : List Coeff

/-- Column selection df[[names]] (the source only selects columns that
its load-time check guarantees; absent names are dropped here). -/
def selectCols (df : DataFrame) (names : List String) : DataFrame :=
  ⟨names.filterMap (fun n => (df.getCol n).map (fun c => (n, c)))⟩

/-- The event-column coercion inside train_cox_model (source lines
29-30): only when the event column has object dtype is it cast with
astype(int); any other dtype (numeric, and also native boolean) is
passed through untouched. -/
def coerce_event (df : DataFrame) : Except String DataFrame :=
  match df.getCol EVENT_COL with
  | none => Except.error "KeyError: подія"
  | some c =>
    if c.dtype = Dtype.object then
      match Column.astypeInt c with
      | some c2 => Except.ok (df.setCol EVENT_COL c2)
      | none => Except.error "ValueError: invalid literal for int"
    else Except.ok df

/-- train_cox_model (source lines 27-34): coerce the event column when
it is object-typed, select duration, event and the seven covariates,
and hand the frame to the external Cox fitter (a parameter here). -/
def train_cox_model (cphFit : DataFrame → Except String FittedModel)
    (df : DataFrame) : Except String FittedModel :=
  match coerce_event df with
  | Except.error e => Except.error e
  | Except.ok df2 => cphFit (selectCols df2 ([DURATION_COL, EVENT_COL] ++ FEATURE_COLUMNS))

/-- Capacity-threshold category rule (source lines 53-58). -/
def infer_type_by_power (p : ℚ) : String :=
  if 6000 < p then "Генератор"
  else if 5200 < p then "Підстанція"
  else "Лінія"

/-- generate_random_data (source lines 36-60): a synthetic frame of n
rows with the full schema including id, display name and category.  The
random draws are abstracted as a function from row index and column
name to a rational. -/
def generate_random_data (n : Nat) (rand : Nat → String → ℚ) : DataFrame :=
  let numcol := fun (name : String) =>
    Column.mk Dtype.numeric ((List.range n).map (fun i => Value.num (rand i name)))
  DataFrame.mk
    [("ід", ⟨Dtype.numeric, (List.range n).map (fun i => Value.num ((i + 1 : Nat) : ℚ))⟩),
     (DURATION_COL, numcol DURATION_COL),
     (EVENT_COL, numcol EVENT_COL),
     ("навантаження_мвт", numcol "навантаження_мвт"),
     ("потужність_мвт", numcol "потужність_мвт"),
     ("завантаженість", numcol "завантаженість"),
     ("температура_с", numcol "температура_с"),
     ("вітер_м_с", numcol "вітер_м_с"),
     ("свято", numcol "свято"),
     ("вік_років", numcol "вік_років"),
     ("назва", ⟨Dtype.object,
       (List.range n).map (fun i => Value.str ("Елемент-" ++ toString (i + 1)))⟩),
     ("тип", ⟨Dtype.object,
       (List.range n).map (fun i => Value.str (infer_type_by_power (rand i "потужність_мвт")))⟩)]

/-- Python float() of a cell, as used by infer_type_row: numbers pass
through, booleans map to 1/0, text is parsed as an integer (general
float text is not exercised by the program and fails here like
non-numeric text does in the source). -/
def pyFloatOfValue : Value → Option ℚ
  | .num q => some q
  | .bool b => some (if b then 1 else 0)
  | .str s => (s.trim.toInt?).map (fun i => (i : ℚ))

/-- infer_type_row (source lines 83-92): read the capacity cell with
default 0, classify by thresholds, and on conversion failure fall back
to the line category. -/
def infer_type_row (df : DataFrame) (i : Nat) : String :=
  let v := match df.getCol "потужність_мвт" with
    | none => Value.num 0
    | some c => c.vals.getD i (Value.num 0)
  match pyFloatOfValue v with
  | some p => infer_type_by_power p
  | none => "Лінія"

/-- Backfill of display columns after loading (source lines 79-93): a
missing name column is derived from the id column (reading the id
column of a frame that lacks it raises, which is modelled as the error
case), and a missing category column is derived per row. -/
def backfill_display (df : DataFrame) : Except String DataFrame :=
  match (if df.hasCol "назва" then Except.ok df
    else match df.getCol "ід" with
      | none => Except.error "KeyError: ід"
      | some c =>
        Except.ok (df.setCol "назва"
          ⟨Dtype.object, c.vals.map (fun v => Value.str ("Елемент-" ++ v.toStr))⟩)) with
  | Except.error e => Except.error e
  | Except.ok df1 =>
    if df1.hasCol "тип" then Except.ok df1
    else Except.ok (df1.setCol "тип"
      ⟨Dtype.object, (List.range df1.nrows).map (fun i => Value.str (infer_type_row df1 i))⟩)

/-- The ValueError message of ensure_columns, naming the missing
columns and the columns present. -/
def schemaErrorMsg (missing present : List String) : String :=
  "У CSV відсутні колонки: " ++ toString missing ++ " Є колонки: " ++ toString present

/-- A user-facing dialog raised by the program. -/
inductive UIEffect where
  | showError (title msg : String)
  | showWarning (title msg : String)
deriving DecidableEq, Repr

def warnTitle : String := "⚠️ Дані — Система моніторингу"

/-- The fallback warning text; it embeds the failure reason. -/
def warnMsg (e : String) : String :=
  "CSV не завантажено для Системи моніторингу завантаженості енергосистеми, використані випадкові дані. Причина: " ++ e

/-- Everything the startup sequence hands to the dashboard. -/
structure StartupResult where
  df : DataFrame
  cph : FittedModel
  sourceLabel : String
  warnings : List UIEffect

/-- The try-block of run_dashboard (source lines 64-68): read the CSV,
check the schema, fit the model; any of the three failures aborts the
attempt. -/
def load_attempt (readCsv : Except String DataFrame)
    (cphFit : DataFrame → Except String FittedModel) :
    Except String (DataFrame × FittedModel) :=
  match readCsv with
  | Except.error e => Except.error e
  | Except.ok df =>
    match ensure_columns df requiredCols with
    | Except.error mp => Except.error (schemaErrorMsg mp.1 mp.2)
    | Except.ok _ =>
      match train_cox_model cphFit df with
      | Except.error e => Except.error e
      | Except.ok m => Except.ok (df, m)

/-- The startup sequence of run_dashboard (source lines 62-93): attempt
the CSV pipeline; on any failure fall back to a synthetic 120-row
dataset, fit on it (uncaught on failure) and queue a warning carrying
the failure reason; then backfill display columns on whichever frame
won. -/
def run_dashboard_init (readCsv : Except String DataFrame)
    (cphFit : DataFrame → Except String FittedModel)
    (rand : Nat → String → ℚ) : Except String StartupResult :=
  match load_attempt readCsv cphFit with
  | Except.ok (df, m) =>
    match backfill_display df with
    | Except.ok df1 => Except.ok ⟨df1, m, "cox_energy_dataset.csv", []⟩
    | Except.error e => Except.error e
  | Except.error e =>
    let sdf := generate_random_data 120 rand
    match train_cox_model cphFit sdf with
    | Except.ok m =>
      match backfill_display sdf with
      | Except.ok df1 =>
        Except.ok ⟨df1, m, "випадкові дані", [UIEffect.showWarning warnTitle (warnMsg e)]⟩
      | Except.error e2 => Except.error e2
    | Except.error e2 => Except.error e2

/-- Ordered insertion of a string (lexicographic order, mirroring the
Python sorted() over the group labels). -/
def insertStr (x : String) : List String → List String
  | [] => [x]
  | a :: t =>
    match compare x a with
    | Ordering.gt => a :: insertStr x t
    | _ => x :: a :: t

/-- sorted(unique(...)) over the group labels: the distinct labels in
sorted order. -/
def sortedDedup (l : List String) : List String :=
  l.foldr (fun x acc => if x ∈ acc then acc else insertStr x acc) []

/-- Ordered insertion of a rational. -/
def insertRat (x : ℚ) : List ℚ → List ℚ
  | [] => [x]
  | a :: t => if x ≤ a then x :: a :: t else a :: insertRat x t

/-- Insertion sort of rationals, for the quantile computation. -/
def sortRat (l : List ℚ) : List ℚ := l.foldr insertRat []

/-- Drop adjacent duplicates of a sorted edge list (the duplicates-drop
of the quantile cut). -/
def dedupAdj : List ℚ → List ℚ
  | [] => []
  | [a] => [a]
  | a :: b :: t => if a = b then dedupAdj (b :: t) else a :: dedupAdj (b :: t)

/-- The k-th tertile of a sorted sample, by the linear-interpolation
quantile definition pandas uses (position (n-1)k/3). -/
def quantileLin (s : List ℚ) (k : Nat) : ℚ :=
  match s with
  | [] => 0
  | _ :: _ =>
    let n := s.length
    let h : ℚ := ((n : ℚ) - 1) * k / 3
    let i : Nat := (Rat.floor h).toNat
    let lo := s.getD i 0
    let hi := s.getD (i + 1) lo
    lo + (h - (i : ℚ)) * (hi - lo)

/-- The three bucket labels of the quantile cut (Low, Medium, High). -/
def labels3 : List String := ["Низьке", "Середнє", "Високе"]

/-- The edge list of the tertile cut: sample minimum, the two interior
tertiles, sample maximum, with duplicate edges dropped. -/
def qcut3Edges (xs : List ℚ) : List ℚ :=
  let s := sortRat xs
  dedupAdj [s.headD 0, quantileLin s 1, quantileLin s 2, s.getLastD 0]

/-- Assign a value to the bucket of the first upper edge at or above
it, labels taken in order. -/
def assignByEdges : List ℚ → List String → ℚ → String
  | _, [], _ => ""
  | [], l :: _, _ => l
  | e :: es, l :: ls, x => if x ≤ e then l else assignByEdges es ls x

/-- Models the external pandas qcut call of source line 318 as the spec
describes it: three equal-frequency buckets at tertile edges, labeled
Low/Medium/High, duplicate edges dropped so fewer than three buckets
may result. -/
def qcut3Assign (xs : List ℚ) : List String :=
  let edges := qcut3Edges xs
  xs.map (assignByEdges edges.tail (labels3.take (edges.length - 1)))

/-- pandas nunique: the number of distinct values of a column. -/
def nuniqueVals (vs : List Value) : Nat :=
  (vs.foldl (fun acc v => if v ∈ acc then acc else v :: acc) []).length

/-- pandas is_numeric_dtype (booleans count as numeric there). -/
def isNumericDtype : Dtype → Bool
  | .numeric => true
  | .boolean => true
  | .object => false

/-- The group label of each row (source lines 315-323): a numeric
column with more than 3 distinct values is quantile-cut into the three
labeled buckets; any other column is grouped by its stringified
value. -/
def groupAssign (c : Column) : List String :=
  if isNumericDtype c.dtype = true ∧ 3 < nuniqueVals c.vals then
    qcut3Assign (c.vals.map valueToRat)
  else
    c.vals.map Value.toStr

/-- The scratch-column write df["_group"] = ... (source lines 318 and
323); a missing grouping column leaves the frame unchanged (the source
guards this case before reaching the write). -/
def assignGroupCol (df : DataFrame) (var : String) : DataFrame :=
  match df.getCol var with
  | none => df
  | some c => df.setCol "_group" ⟨Dtype.object, (groupAssign c).map Value.str⟩

/-- The (duration, event) pairs of the rows whose label is l (the mask
df["_group"] == val selecting rows of source lines 326-330). -/
def kmPairs (labels : List String) (durs evs : List ℚ) (l : String) : List (ℚ × ℚ) :=
  match labels, durs, evs with
  | a :: t, d :: dt, e :: et =>
    if a = l then (d, e) :: kmPairs t dt et l else kmPairs t dt et l
  | _, _, _ => []

/-- The per-group Kaplan-Meier loop (source lines 325-331): for each
distinct group label in sorted order, skip empty groups and fit the
external Kaplan-Meier estimator (a parameter) on the group's
(duration, event) pairs. -/
def kmCurves (df : DataFrame) (kmfit : List (ℚ × ℚ) → List (ℚ × ℚ)) :
    List (String × List (ℚ × ℚ)) :=
  match df.getCol "_group" with
  | none => []
  | some g =>
    let labels := g.vals.map Value.toStr
    let durs := df.colRats DURATION_COL
    let evs := df.colRats EVENT_COL
    (sortedDedup labels).filterMap (fun l =>
      let pairs := kmPairs labels durs evs l
      if pairs.isEmpty then none else some (l, kmfit pairs))

/-- The grouped-survival view: assign the scratch group column from the
chosen covariate, then fit one Kaplan-Meier curve per non-empty
group. -/
def group_survival (df : DataFrame) (var : String)
    (kmfit : List (ℚ × ℚ) → List (ℚ × ℚ)) : List (String × List (ℚ × ℚ)) :=
  kmCurves (assignGroupCol df var) kmfit

/-- The (duration, event) pairs of the group labeled l, for the
grouping column c of the frame df. -/
def groupPairs (df : DataFrame) (c : Column) (l : String) : List (ℚ × ℚ) :=
  kmPairs (groupAssign c) (df.colRats DURATION_COL) (df.colRats EVENT_COL) l

/-- The numeric covariate vector of row i,
df.iloc[[idx]][FEATURE_COLUMNS] of source line 248. -/
def featureRow (df : DataFrame) (i : Nat) : List ℚ :=
  FEATURE_COLUMNS.map (fun c => valueToRat (cellAt df c i))

/-- Ordered insertion by hazard ratio (ascending). -/
def insertCoeffByHR (x : Coeff) : List Coeff → List Coeff
  | [] => [x]
  | a :: t => if x.hr ≤ a.hr then x :: a :: t else a :: insertCoeffByHR x t

/-- The sort_values over hazard ratios of source line 282. -/
def sortCoeffByHR (l : List Coeff) : List Coeff := l.foldr insertCoeffByHR []

/-- Distance of a hazard ratio from 1, the report's ranking key. -/
def absDev (c : Coeff) : ℚ := |c.hr - 1|

/-- Ordered insertion by descending distance from 1. -/
def insertCoeffByDev (x : Coeff) : List Coeff → List Coeff
  | [] => [x]
  | a :: t => if absDev a ≤ absDev x then x :: a :: t else a :: insertCoeffByDev x t

/-- The reindex by descending deviation of source lines 403-405. -/
def sortCoeffByDev (l : List Coeff) : List Coeff := l.foldr insertCoeffByDev []

/-- The survival-curve view: curve, optional median marker, title. -/
structure SurvView where
  curve : List (ℚ × ℚ)
  medianLine : Option ℚ
  title : String

/-- The hazard-ratio view: bars (name, ratio, color) or the
no-coefficients placeholder. -/
inductive HRView where
  | bars (entries : List (String × ℚ × String))
  | placeholder (msg : String)

/-- The cumulative-hazard view. -/
structure CHView where
  curve : List (ℚ × ℚ)
  title : String

/-- The grouped-survival view: one curve per group, or the
no-groupable-variable placeholder. -/
inductive GroupsView where
  | curves (var : String) (gs : List (String × List (ℚ × ℚ)))
  | noVars (msg : String)

/-- The load gauge: progress-bar value and its text label. -/
structure LoadView where
  barValue : ℚ
  label : String

/-- The process-local session state of the dashboard: the dataset and
fitted model, the control variables, and every rendered view. -/
structure AppState where
  df : DataFrame
  cph : FittedModel
  kmfit : List (ℚ × ℚ) → List (ℚ × ℚ)
  objVar : Option Int
  idVar : String
  groupVar : String
  groupableVars : List String
  sourceLabel : String
  survView : SurvView
  hrView : HRView
  chView : CHView
  groupsView : GroupsView
  riskLabel : Option RiskLevel
  loadView : LoadView
  recordCard : String
  detailsPanel : List (String × Value)
  detailsInterp : Option String
  reportText : List String
  detailsShown : Bool

def survTitle (idx : Int) : String :=
  "Крива виживаності для елемента #" ++ toString idx

def chTitle (idx : Int) : String :=
  "Кумулятивний ризик для елемента #" ++ toString idx

/-- The out-of-range error dialog text of source line 245. -/
def errIndexMsg (idx : Int) : String :=
  "Немає елемента мережі з індексом " ++ toString idx

/-- The risk-label texts of source lines 342-347. -/
def riskLabelText : RiskLevel → String
  | .low => "🟢 Низьке навантаження"
  | .moderate => "🟡 Помірне навантаження"
  | .high => "🔴 Високе навантаження"

/-- Bar color of a hazard ratio (red above 1, green otherwise). -/
def hrColor (v : ℚ) : String := if 1 < v then "red" else "green"

/-- The hazard-ratio view of source lines 279-289. -/
def hrViewOf (summary : List Coeff) : HRView :=
  if summary.isEmpty then HRView.placeholder "Немає коефіцієнтів"
  else HRView.bars ((sortCoeffByHR summary).map (fun c => (c.name, c.hr, hrColor c.hr)))

/-- One line of the effect report (source lines 406-420); thresholds
1.1 and 0.9 are written as mkRat. -/
def describeCoeff (c : Coeff) : String :=
  let percent := (c.hr - 1) * 100
  let effect :=
    if mkRat 11 10 < c.hr then
      "підвищує ризик приблизно на " ++ toString percent ++ "%"
    else if c.hr < mkRat 9 10 then
      "знижує ризик приблизно на " ++ toString |percent| ++ "%"
    else "майже не впливає на ризик"
  "• " ++ c.name ++ ": " ++ effect ++ " (HR=" ++ toString c.hr ++ ", CI " ++
    toString c.ciLow ++ "-" ++ toString c.ciHigh ++ ")"

/-- The textual report (source lines 399-424). -/
def reportLines (summary : List Coeff) (idx : Int) (riskText : String) : List String :=
  if summary.isEmpty then ["⚠️ Немає коефіцієнтів для формування звіту"]
  else
    let s := sortCoeffByDev summary
    ["📊 Звіт моніторингу завантаженості (модель Кокса)"] ++
    s.map describeCoeff ++
    ["Найбільший вплив має: " ++ (s.headD ⟨"", 0, 0, 0⟩).name,
     "Індивідуальний стан навантаження елемента #" ++ toString idx ++ ": " ++ riskText]

/-- The load gauge update (source lines 349-362): current load of the
selected row, rescaled over the dataset's load column; a frame without
the load column degrades to the dash label. -/
def loadIndicator (df : DataFrame) (i : Nat) : LoadView :=
  match df.getCol "навантаження_мвт" with
  | none => ⟨0, "— МВт"⟩
  | some c =>
    let loads := c.vals.map valueToRat
    let curr := valueToRat (c.vals.getD i (Value.num 0))
    let pct := normalized_load curr loads
    ⟨pct, toString curr ++ " МВт (" ++ toString pct ++ "%)"⟩

/-- Python list.insert: past-the-end positions append. -/
def pyInsert {α : Type} (n : Nat) (x : α) : List α → List α
  | [] => [x]
  | a :: t =>
    match n with
    | 0 => x :: a :: t
    | Nat.succ k => a :: pyInsert k x t

/-- Python str.join with a separator. -/
def joinSep (sep : String) : List String → String
  | [] => ""
  | [a] => a
  | a :: t => a ++ sep ++ joinSep sep t

/-- The record summary card (source lines 364-382): optional id,
name (inserted first) and category (inserted second), then the load,
capacity and utilization cells; numeric formatting is abstracted. -/
def recordCardText (df : DataFrame) (i : Nat) : String :=
  let parts0 : List String :=
    if df.hasCol "ід" then ["ID: " ++ (cellAt df "ід" i).toStr] else []
  let parts1 :=
    if df.hasCol "назва" then pyInsert 0 ((cellAt df "назва" i).toStr) parts0 else parts0
  let parts2 :=
    if df.hasCol "тип" then pyInsert 1 ("(" ++ (cellAt df "тип" i).toStr ++ ")") parts1
    else parts1
  let parts3 := parts2 ++
    ["Навантаження: " ++ (cellAt df "навантаження_мвт" i).toStr ++ " МВт",
     "Потужність: " ++ (cellAt df "потужність_мвт" i).toStr ++ " МВт",
     "Завантаженість: " ++ (cellAt df "завантаженість" i).toStr]
  if parts3.isEmpty then "Елемент: —" else joinSep "  • " parts3

/-- The full-record detail panel (source lines 385-391):
df.iloc[idx].to_dict() printed as every column name with its cell. -/
def fullRowPanel (df : DataFrame) (i : Nat) : List (String × Value) :=
  df.cols.map (fun p => (p.1, p.2.vals.getD i (Value.num 0)))

/-- The appended category interpretation of source lines 392-395 (the
source's globals() lookup of infer_type_row fails, so the note text
degrades to the n/a marker). -/
def detailsInterpOf (df : DataFrame) (full : List (String × Value)) : Option String :=
  if df.hasCol "тип" = false ∨
      (((full.lookup "тип").getD (Value.str "")).toStr.trim = "") then some "Н/д"
  else none

/-- The grouping variable after the fallback of source lines 306-309:
keep the chosen one when its column exists, otherwise the first
groupable variable. -/
def resolvedGroupVar (st : AppState) : String :=
  if st.df.hasCol st.groupVar = true then st.groupVar
  else st.groupableVars.headD st.groupVar

/-- The id-combobox sync of source lines 250-257. -/
def syncIdVar (st : AppState) (i : Nat) : String :=
  if st.df.hasCol "ід" then (cellAt st.df "ід" i).toStr else st.idVar

/-- The survival view of source lines 259-276. -/
def survViewOf (st : AppState) (i : Nat) (idx : Int) : SurvView :=
  let surv := st.cph.predictSurvival (featureRow st.df i)
  ⟨surv, median_survival_time surv, survTitle idx⟩

/-- The cumulative-hazard view of source lines 291-298. -/
def chViewOf (st : AppState) (i : Nat) (idx : Int) : CHView :=
  ⟨st.cph.predictCumHazard (featureRow st.df i), chTitle idx⟩

/-- The partial-hazard risk bucket of the selected row. -/
def riskOf (st : AppState) (i : Nat) : RiskLevel :=
  risk_bucket (st.cph.predictPartialHazard (featureRow st.df i))

/-- The view recomputation after the index guard (source lines
248-424): id sync, survival, hazard ratios and cumulative hazard; then
either the no-groupable-variable placeholder (which returns early,
leaving risk label, gauge, card, details and report untouched), or the
scratch-group write, grouped curves, risk label, gauge, record card,
full-record details and report. -/
def update_views (st : AppState) (i : Nat) (idx : Int) : AppState × List UIEffect :=
  if st.df.hasCol st.groupVar = false ∧ st.groupableVars.isEmpty = true then
    ({ st with
        idVar := syncIdVar st i,
        survView := survViewOf st i idx,
        hrView := hrViewOf st.cph.summary,
        chView := chViewOf st i idx,
        groupsView := GroupsView.noVars "Немає змінних для групування" }, [])
  else
    ({ st with
        df := assignGroupCol st.df (resolvedGroupVar st),
        idVar := syncIdVar st i,
        groupVar := resolvedGroupVar st,
        survView := survViewOf st i idx,
        hrView := hrViewOf st.cph.summary,
        chView := chViewOf st i idx,
        groupsView := GroupsView.curves (resolvedGroupVar st)
          (kmCurves (assignGroupCol st.df (resolvedGroupVar st)) st.kmfit),
        riskLabel := some (riskOf st i),
        loadView := loadIndicator (assignGroupCol st.df (resolvedGroupVar st)) i,
        recordCard := recordCardText (assignGroupCol st.df (resolvedGroupVar st)) i,
        detailsPanel := fullRowPanel (assignGroupCol st.df (resolvedGroupVar st)) i,
        detailsInterp := detailsInterpOf (assignGroupCol st.df (resolvedGroupVar st))
          (fullRowPanel (assignGroupCol st.df (resolvedGroupVar st)) i),
        reportText := reportLines st.cph.summary idx (riskLabelText (riskOf st i)) }, [])

/-- update_dashboard (source lines 236-424): parse the selection (an
unparseable control value becomes 0 and is written back), guard the
range with an error dialog and no other change, then recompute the
views. -/
def update_dashboard (st0 : AppState) : AppState × List UIEffect :=
  let idx : Int := match st0.objVar with | some i => i | none => 0
  let st := match st0.objVar with
    | some _ => st0
    | none => { st0 with objVar := some 0 }
  if idx < 0 ∨ (st.df.nrows : Int) ≤ idx then
    (st, [UIEffect.showError "Помилка" (errIndexMsg idx)])
  else
    update_views st idx.toNat idx

/-- on_id_change (source lines 153-163): find the first row whose
stringified id equals the selection and point the spinbox at it. -/
def on_id_change (st : AppState) : AppState :=
  if st.df.hasCol "ід" then
    match (match st.df.getCol "ід" with
      | none => none
      | some c => (c.vals.map Value.toStr).findIdx? (fun s => s == st.idVar)) with
    | some i => { st with objVar := some (Int.ofNat i) }
    | none => st
  else st

/-- toggle_details (source lines 465-473): flip the visibility flag of
the details panel. -/
def toggle_details (st : AppState) : AppState :=
  { st with detailsShown := !st.detailsShown }

/-- regenerate_data (source lines 426-456): replace the dataset with a
fresh 150-row synthetic frame (which always carries id, name and
category, so the conditional backfills are no-ops), refit (the
successful fit is a parameter; a failing fit would be uncaught), reset
the selection to 0, refresh the control lists, and recompute. -/
def regenerate_data (rand : Nat → String → ℚ) (m : FittedModel)
    (st : AppState) : AppState × List UIEffect :=
  let df := generate_random_data 150 rand
  let gvars := FEATURE_COLUMNS.filter (fun c => df.hasCol c)
  let st2 := { st with
    df := df,
    cph := m,
    objVar := some 0,
    sourceLabel := "випадкові дані",
    groupableVars := gvars,
    groupVar := if gvars.isEmpty then st.groupVar else gvars.headD st.groupVar,
    idVar := match df.getCol "ід" with
      | none => st.idVar
      | some c => if c.vals.isEmpty then st.idVar else (c.vals.headD (Value.num 0)).toStr }
  update_dashboard st2

/-- A trivial fitted model used by concrete test states. -/
def fixtureModel : FittedModel := ⟨fun _ => [], fun _ => [], fun _ => 0, []⟩

/-- A concrete session state around a given frame, selection and
grouping variable, with everything else blank. -/
def fixtureState (df : DataFrame) (objVar : Option Int) (groupVar : String) : AppState :=
  { df := df, cph := fixtureModel, kmfit := fun l => l, objVar := objVar,
    idVar := "", groupVar := groupVar, groupableVars := [],
    sourceLabel := "", survView := ⟨[], none, ""⟩, hrView := HRView.placeholder "",
    chView := ⟨[], ""⟩, groupsView := GroupsView.noVars "", riskLabel := none,
    loadView := ⟨0, ""⟩, recordCard := "", detailsPanel := [], detailsInterp := none,
    reportText := [], detailsShown := false }

/-- A three-column two-row frame used by concrete test states that
stop at the index guard or only compare two recomputes. -/
def fixtureDf : DataFrame :=
  DataFrame.mk
    [("тривалість", ⟨Dtype.numeric, [Value.num 10, Value.num 20]⟩),
     ("подія", ⟨Dtype.numeric, [Value.num 1, Value.num 0]⟩),
     ("навантаження_мвт", ⟨Dtype.numeric, [Value.num 5, Value.num 5]⟩)]

/-- A schema-complete two-row frame (duration, event and all seven
covariates), for test states whose recompute runs past the covariate
selection of source line 248. -/
def fixtureFullDf : DataFrame :=
  DataFrame.mk
    [("тривалість", ⟨Dtype.numeric, [Value.num 10, Value.num 20]⟩),
     ("подія", ⟨Dtype.numeric, [Value.num 1, Value.num 0]⟩),
     ("навантаження_мвт", ⟨Dtype.numeric, [Value.num 5, Value.num 5]⟩),
     ("потужність_мвт", ⟨Dtype.numeric, [Value.num 6, Value.num 7]⟩),
     ("завантаженість", ⟨Dtype.numeric, [Value.num 1, Value.num 1]⟩),
     ("температура_с", ⟨Dtype.numeric, [Value.num 2, Value.num 3]⟩),
     ("вітер_м_с", ⟨Dtype.numeric, [Value.num 4, Value.num 4]⟩),
     ("свято", ⟨Dtype.numeric, [Value.num 0, Value.num 1]⟩),
     ("вік_років", ⟨Dtype.numeric, [Value.num 8, Value.num 9]⟩)]

/-! Helper lemmas about list minima and maxima. -/

lemma foldl_min_le_init (t : List ℚ) (a : ℚ) : t.foldl min a ≤ a := by
  induction t generalizing a with
  | nil => exact le_refl a
  | cons b t ih => exact le_trans (ih (min a b)) (min_le_left a b)

lemma foldl_min_le_mem (t : List ℚ) (a x : ℚ) (h : x ∈ t) : t.foldl min a ≤ x := by
  induction t generalizing a with
  | nil => cases h
  | cons b t ih =>
    rcases List.mem_cons.mp h with rfl | hx
    · exact le_trans (foldl_min_le_init t (min a x)) (min_le_right a x)
    · exact ih (min a b) hx

lemma init_le_foldl_max (t : List ℚ) (a : ℚ) : a ≤ t.foldl max a := by
  induction t generalizing a with
  | nil => exact le_refl a
  | cons b t ih => exact le_trans (le_max_left a b) (ih (max a b))

lemma mem_le_foldl_max (t : List ℚ) (a x : ℚ) (h : x ∈ t) : x ≤ t.foldl max a := by
  induction t generalizing a with
  | nil => cases h
  | cons b t ih =>
    rcases List.mem_cons.mp h with rfl | hx
    · exact le_trans (le_max_right a x) (init_le_foldl_max t (max a x))
    · exact ih (max a b) hx

lemma listMin_le_mem {x : ℚ} {l : List ℚ} (h : x ∈ l) : listMin l ≤ x := by
  cases l with
  | nil => cases h
  | cons a t =>
    rcases List.mem_cons.mp h with rfl | hx
    · exact foldl_min_le_init t x
    · exact foldl_min_le_mem t a x hx

lemma mem_le_listMax {x : ℚ} {l : List ℚ} (h : x ∈ l) : x ≤ listMax l := by
  cases l with
  | nil => cases h
  | cons a t =>
    rcases List.mem_cons.mp h with rfl | hx
    · exact init_le_foldl_max t x
    · exact mem_le_foldl_max t a x hx

lemma mkRat_8_10 : (mkRat 8 10 : ℚ) = (0.8 : ℚ) := by
  rw [Rat.mkRat_eq_div]; norm_num

lemma mkRat_12_10 : (mkRat 12 10 : ℚ) = (1.2 : ℚ) := by
  rw [Rat.mkRat_eq_div]; norm_num

lemma mkRat_1_2 : (mkRat 1 2 : ℚ) = (0.5 : ℚ) := by
  rw [Rat.mkRat_eq_div]; norm_num

/-- C5: the risk bucket is a pure function of the partial hazard with
fixed thresholds: low below 0.8, high from 1.2 on, moderate in between;
in particular 0.79 is low, 0.8 and 1.19 are moderate, and 1.2 is high. -/
theorem risk_bucket_spec (x : ℚ) :
    (x < (0.8 : ℚ) → risk_bucket x = RiskLevel.low) ∧
    ((0.8 : ℚ) ≤ x ∧ x < (1.2 : ℚ) → risk_bucket x = RiskLevel.moderate) ∧
    ((1.2 : ℚ) ≤ x → risk_bucket x = RiskLevel.high) ∧
    risk_bucket (0.79 : ℚ) = RiskLevel.low ∧
    risk_bucket (0.8 : ℚ) = RiskLevel.moderate ∧
    risk_bucket (1.19 : ℚ) = RiskLevel.moderate ∧
    risk_bucket (1.2 : ℚ) = RiskLevel.high := by
  have h79 : (0.79 : ℚ) = mkRat 79 100 := by rw [Rat.mkRat_eq_div]; norm_num
  have h119 : (1.19 : ℚ) = mkRat 119 100 := by rw [Rat.mkRat_eq_div]; norm_num
  have h08 : (0.8 : ℚ) = mkRat 8 10 := mkRat_8_10.symm
  have h12 : (1.2 : ℚ) = mkRat 12 10 := mkRat_12_10.symm
  refine ⟨fun h => ?_, fun h => ?_, fun h => ?_, ?_, ?_, ?_, ?_⟩
  · simp [risk_bucket, mkRat_8_10, h]
  · simp [risk_bucket, mkRat_8_10, mkRat_12_10, not_lt.mpr h.1, h.2]
  · have h1 : ¬x < (0.8 : ℚ) := not_lt.mpr (le_trans (by norm_num) h)
    simp [risk_bucket, mkRat_8_10, mkRat_12_10, h1, not_lt.mpr h]
  · rw [h79]; decide
  · rw [h08]; decide
  · rw [h119]; decide
  · rw [h12]; decide

/-- Closed witness for the risk-bucket theorem at a concrete input. -/
theorem risk_bucket_spec_witness :
    (0.79 : ℚ) < 0.8 ∧ risk_bucket (0.79 : ℚ) = RiskLevel.low := by
  exact ⟨by norm_num, (risk_bucket_spec (0.79 : ℚ)).1 (by norm_num)⟩

/-- C9: the column check fails exactly when some required column is
absent; the raised error carries exactly the missing required columns
(in order) together with the columns actually present, and when all
required columns are present no error is raised (the check touches and
returns nothing, so the table is left unchanged). -/
theorem ensure_columns_spec (df : DataFrame) (required : List String) :
    (ensure_columns df required = Except.ok () ↔
      ∀ c ∈ required, df.hasCol c = true) ∧
    (∀ m p, ensure_columns df required = Except.error (m, p) →
      m = required.filter (fun c => !df.hasCol c) ∧
      p = df.colNames ∧
      m ≠ [] ∧
      (∀ c, c ∈ m ↔ (c ∈ required ∧ df.hasCol c = false))) := by
  constructor
  · constructor
    · intro hok c hc
      by_cases h : (required.filter (fun c => !df.hasCol c)).isEmpty = true
      · have h0 : required.filter (fun c => !df.hasCol c) = [] :=
          List.isEmpty_iff.mp h
        have := (List.filter_eq_nil_iff.mp h0) c hc
        simpa using this
      · simp only [ensure_columns, if_neg h] at hok
        cases hok
    · intro hall
      have h0 : required.filter (fun c => !df.hasCol c) = [] :=
        List.filter_eq_nil_iff.mpr (by intro c hc; simp [hall c hc])
      simp only [ensure_columns, h0]
      rfl
  · intro m p hmp
    by_cases h : (required.filter (fun c => !df.hasCol c)).isEmpty = true
    · simp only [ensure_columns, if_pos h] at hmp
      cases hmp
    · simp only [ensure_columns, if_neg h] at hmp
      injection hmp with hpair
      injection hpair with hm hp
      subst hm; subst hp
      refine ⟨rfl, rfl, ?_, ?_⟩
      · intro hnil
        exact h (by simp [hnil])
      · intro c
        constructor
        · intro hc
          have := List.mem_filter.mp hc
          exact ⟨this.1, by simpa using this.2⟩
        · intro ⟨h1, h2⟩
          exact List.mem_filter.mpr ⟨h1, by simp [h2]⟩

/-- Closed witness for the column-check theorem: a frame missing the
event column reports exactly that column as missing, next to the
columns present. -/
theorem ensure_columns_spec_witness :
    ["подія"] =
      (["тривалість", "подія"].filter
        (fun c => !(DataFrame.mk [("тривалість", ⟨Dtype.numeric, [Value.num 1]⟩)]).hasCol c)) ∧
    (["подія"] : List String) ≠ [] ∧
    ("подія" ∈ (["подія"] : List String) ↔
      ("подія" ∈ ["тривалість", "подія"] ∧
        (DataFrame.mk [("тривалість", ⟨Dtype.numeric, [Value.num 1]⟩)]).hasCol "подія" = false)) := by
  have h := (ensure_columns_spec
      (DataFrame.mk [("тривалість", ⟨Dtype.numeric, [Value.num 1]⟩)])
      ["тривалість", "подія"]).2 ["подія"] ["тривалість"] (by rfl)
  exact ⟨h.1, h.2.2.1, h.2.2.2 "подія"⟩

/-- C4 helper: characterization of the first qualifying point found on a
curve whose time points strictly increase. -/
lemma median_survival_time_some (curve : List (ℚ × ℚ))
    (hs : curve.Pairwise (fun a b => a.1 < b.1)) (t : ℚ)
    (h : median_survival_time curve = some t) :
    (∃ p ∈ curve, p.1 = t ∧ p.2 ≤ (0.5 : ℚ)) ∧
    ∀ q ∈ curve, q.2 ≤ (0.5 : ℚ) → t ≤ q.1 := by
  induction curve with
  | nil => simp [median_survival_time] at h
  | cons a l ih =>
    have hpair := List.pairwise_cons.mp hs
    by_cases ha : a.2 ≤ (0.5 : ℚ)
    · have : median_survival_time (a :: l) = some a.1 := by
        simp [median_survival_time, mkRat_1_2, ha]
      rw [this] at h
      injection h with ht
      subst ht
      constructor
      · exact ⟨a, List.mem_cons_self a l, rfl, ha⟩
      · intro q hq _
        rcases List.mem_cons.mp hq with rfl | hql
        · exact le_refl _
        · exact le_of_lt (hpair.1 q hql)
    · have hred : median_survival_time (a :: l) = median_survival_time l := by
        simp [median_survival_time, mkRat_1_2, ha]
      rw [hred] at h
      obtain ⟨⟨p, hp, hpt, hple⟩, hfirst⟩ := ih hpair.2 h
      constructor
      · exact ⟨p, List.mem_cons_of_mem a hp, hpt, hple⟩
      · intro q hq hqle
        rcases List.mem_cons.mp hq with rfl | hql
        · exact absurd hqle ha
        · exact hfirst q hql hqle

/-- C4: on a curve whose time points strictly increase, the median
survival time is none exactly when every probability stays above one
half; otherwise it is the time of the first point at or below one half
(every qualifying point lies at or after it), and recomputation on the
same curve gives the same result. -/
theorem median_survival_time_spec (curve : List (ℚ × ℚ))
    (hs : curve.Pairwise (fun a b => a.1 < b.1)) :
    (median_survival_time curve = none ↔ ∀ p ∈ curve, (0.5 : ℚ) < p.2) ∧
    (∀ t, median_survival_time curve = some t →
      (∃ p ∈ curve, p.1 = t ∧ p.2 ≤ (0.5 : ℚ)) ∧
      ∀ q ∈ curve, q.2 ≤ (0.5 : ℚ) → t ≤ q.1) ∧
    median_survival_time curve = median_survival_time curve := by
  refine ⟨?_, fun t h => median_survival_time_some curve hs t h, rfl⟩
  clear hs
  induction curve with
  | nil =>
    constructor
    · intro _ p hp; cases hp
    · intro _; rfl
  | cons a l ih =>
    by_cases ha : a.2 ≤ (0.5 : ℚ)
    · have hsome : median_survival_time (a :: l) = some a.1 := by
        simp [median_survival_time, mkRat_1_2, ha]
      rw [hsome]
      constructor
      · intro hcon; cases hcon
      · intro hall
        exact absurd ha (not_le.mpr (hall a (List.mem_cons_self a l)))
    · have hred : median_survival_time (a :: l) = median_survival_time l := by
        simp [median_survival_time, mkRat_1_2, ha]
      rw [hred]
      constructor
      · intro hn q hq
        rcases List.mem_cons.mp hq with rfl | hql
        · exact not_le.mp ha
        · exact ih.mp hn q hql
      · intro hall
        exact ih.mpr (fun q hq => hall q (List.mem_cons_of_mem a hq))

/-- Closed witness for the median-survival theorem on a concrete
three-point curve crossing one half at time 2. -/
theorem median_survival_time_spec_witness :
    median_survival_time [((1 : ℚ), 1), (2, 0), (3, 0)] = some 2 ∧
    (∃ p ∈ [((1 : ℚ), (1 : ℚ)), (2, 0), (3, 0)], p.1 = 2 ∧ p.2 ≤ (0.5 : ℚ)) := by
  have h := (median_survival_time_spec [((1 : ℚ), 1), (2, 0), (3, 0)]
      (by norm_num)).2.1 2 (by decide)
  exact ⟨by decide, h.1⟩

/-- C6: the normalized load always lies between 0 and 100; for a record
load drawn from the dataset it is exactly the linear rescale between the
dataset minimum and maximum when those differ; it is 0 at the minimum,
100 at the maximum when at least two distinct loads exist, and 0 when
all loads coincide. -/
theorem normalized_load_spec (loads : List ℚ) (x : ℚ) :
    (0 ≤ normalized_load x loads ∧ normalized_load x loads ≤ 100) ∧
    (x ∈ loads → listMin loads < listMax loads →
      normalized_load x loads =
        (x - listMin loads) / (listMax loads - listMin loads) * 100) ∧
    normalized_load (listMin loads) loads = 0 ∧
    (listMin loads < listMax loads → normalized_load (listMax loads) loads = 100) ∧
    (listMin loads = listMax loads → normalized_load x loads = 0) := by
  refine ⟨⟨le_max_left 0 _, ?_⟩, ?_, ?_, ?_, ?_⟩
  · exact max_le (by norm_num) (min_le_left 100 _)
  · intro hmem hlt
    have hd : (0 : ℚ) < listMax loads - listMin loads := sub_pos.mpr hlt
    have hx1 : listMin loads ≤ x := listMin_le_mem hmem
    have hx2 : x ≤ listMax loads := mem_le_listMax hmem
    have hpos : 0 ≤ (x - listMin loads) / (listMax loads - listMin loads) * 100 := by
      apply mul_nonneg _ (by norm_num)
      exact div_nonneg (sub_nonneg.mpr hx1) (le_of_lt hd)
    have hle : (x - listMin loads) / (listMax loads - listMin loads) * 100 ≤ 100 := by
      have h1 : (x - listMin loads) / (listMax loads - listMin loads) ≤ 1 :=
        (div_le_one hd).mpr (sub_le_sub_right hx2 _)
      calc (x - listMin loads) / (listMax loads - listMin loads) * 100
          ≤ 1 * 100 := by
            exact mul_le_mul_of_nonneg_right h1 (by norm_num)
        _ = 100 := by norm_num
    simp only [normalized_load, if_pos hlt]
    rw [min_eq_right hle, max_eq_right hpos]
  · by_cases hlt : listMin loads < listMax loads
    · simp [normalized_load, if_pos hlt]
    · simp [normalized_load, if_neg hlt]
  · intro hlt
    have hd : (0 : ℚ) < listMax loads - listMin loads := sub_pos.mpr hlt
    have : (listMax loads - listMin loads) / (listMax loads - listMin loads) = 1 :=
      div_self (ne_of_gt hd)
    simp only [normalized_load, if_pos hlt, this]
    norm_num
  · intro heq
    have hlt : ¬listMin loads < listMax loads := by rw [heq]; exact lt_irrefl _
    simp [normalized_load, if_neg hlt]

/-- Closed witness for the normalized-load theorem: loads 10, 15 and
20; the record load 15 rescales linearly, and the minimum load maps
to 0. -/
theorem normalized_load_spec_witness :
    (15 : ℚ) ∈ [(10 : ℚ), 15, 20] ∧
    normalized_load 15 [(10 : ℚ), 15, 20] =
      (15 - listMin [(10 : ℚ), 15, 20]) /
        (listMax [(10 : ℚ), 15, 20] - listMin [(10 : ℚ), 15, 20]) * 100 ∧
    normalized_load (listMin [(10 : ℚ), 15, 20]) [(10 : ℚ), 15, 20] = 0 := by
  have hmm : listMin [(10 : ℚ), 15, 20] < listMax [(10 : ℚ), 15, 20] := by decide
  have h := normalized_load_spec [(10 : ℚ), 15, 20] 15
  exact ⟨by decide, h.2.1 (by decide) hmm, h.2.2.1⟩

/-- C8 (amended): the event column is cast to integers exactly when its
dtype is object (textual or boxed values) — each cell then becomes its
Python int() reading, so boxed booleans become 0/1 — while a column of
any other dtype, including native boolean, is passed to the fitter
unchanged. -/
theorem coerce_event_spec (df : DataFrame) (c : Column)
    (hc : df.getCol EVENT_COL = some c) :
    (c.dtype = Dtype.object →
      (∀ is, pyIntsOfVals c.vals = some is →
        coerce_event df =
          Except.ok (df.setCol EVENT_COL
            ⟨Dtype.numeric, is.map (fun i => Value.num (i : ℚ))⟩)) ∧
      (pyIntsOfVals c.vals = none →
        coerce_event df = Except.error "ValueError: invalid literal for int")) ∧
    (c.dtype ≠ Dtype.object → coerce_event df = Except.ok df) ∧
    (∀ b, pyIntOfValue (Value.bool b) = some (if b then 1 else 0)) := by
  refine ⟨fun hobj => ⟨fun is his => ?_, fun hnone => ?_⟩, fun hne => ?_, fun b => rfl⟩
  · simp [coerce_event, hc, hobj, Column.astypeInt, his]
  · simp [coerce_event, hc, hobj, Column.astypeInt, hnone]
  · simp [coerce_event, hc, hne]

/-- Closed witness for the coercion theorem: an object-dtype event
column of boxed booleans is cast to the 0/1 integer encoding. -/
theorem coerce_event_spec_witness :
    coerce_event
        (DataFrame.mk [("подія", ⟨Dtype.object, [Value.bool true, Value.bool false]⟩)]) =
      Except.ok (DataFrame.mk [("подія", ⟨Dtype.numeric, [Value.num 1, Value.num 0]⟩)]) := by
  have h := ((coerce_event_spec
      (DataFrame.mk [("подія", ⟨Dtype.object, [Value.bool true, Value.bool false]⟩)])
      ⟨Dtype.object, [Value.bool true, Value.bool false]⟩ rfl).1 rfl).1 [1, 0] (by rfl)
  rw [h]
  rfl

/-- C8 counterexample: an event column given as a native boolean
representation is not coerced at all — it keeps boolean dtype and
boolean cells, not a 0/1 integer encoding. -/
theorem coerce_event_bool_counterexample :
    coerce_event
        (DataFrame.mk [("подія", ⟨Dtype.boolean, [Value.bool true, Value.bool false]⟩)]) =
      Except.ok
        (DataFrame.mk [("подія", ⟨Dtype.boolean, [Value.bool true, Value.bool false]⟩)]) ∧
    ((DataFrame.mk [("подія", ⟨Dtype.boolean, [Value.bool true, Value.bool false]⟩)]).getCol
        "подія").map Column.dtype = some Dtype.boolean := by
  exact ⟨rfl, rfl⟩

lemma gen_hasCol_name (n : Nat) (rand : Nat → String → ℚ) :
    (generate_random_data n rand).hasCol "назва" = true := rfl

lemma gen_hasCol_cat (n : Nat) (rand : Nat → String → ℚ) :
    (generate_random_data n rand).hasCol "тип" = true := rfl

lemma backfill_gen (n : Nat) (rand : Nat → String → ℚ) :
    backfill_display (generate_random_data n rand) =
      Except.ok (generate_random_data n rand) := rfl

/-- C1 (amended): when the CSV pipeline fails for any reason (read
error, schema error, or a fitting failure on the loaded data), startup
falls back to the 120-row synthetic dataset, fits on it, and surfaces
the failure reason in a warning; fitting failure on the synthetic
dataset is fatal.  In addition — beyond the claim — a successfully
loaded and fitted CSV that lacks both the display-name column and the
id column is also startup-fatal, because the name backfill reads the id
column outside any handler. -/
theorem run_dashboard_init_spec (readCsv : Except String DataFrame)
    (cphFit : DataFrame → Except String FittedModel) (rand : Nat → String → ℚ) :
    (∀ e, load_attempt readCsv cphFit = Except.error e →
      (∀ m, train_cox_model cphFit (generate_random_data 120 rand) = Except.ok m →
        run_dashboard_init readCsv cphFit rand =
          Except.ok ⟨generate_random_data 120 rand, m, "випадкові дані",
            [UIEffect.showWarning warnTitle (warnMsg e)]⟩) ∧
      (∀ e2, train_cox_model cphFit (generate_random_data 120 rand) = Except.error e2 →
        run_dashboard_init readCsv cphFit rand = Except.error e2)) ∧
    (∀ df m, load_attempt readCsv cphFit = Except.ok (df, m) →
      df.hasCol "назва" = false → df.hasCol "ід" = false →
      run_dashboard_init readCsv cphFit rand = Except.error "KeyError: ід") := by
  constructor
  · intro e he
    constructor
    · intro m hm
      simp [run_dashboard_init, he, hm, backfill_gen]
    · intro e2 hm
      simp [run_dashboard_init, he, hm]
  · intro df m hok hname hid
    have hgid : df.getCol "ід" = none := by
      cases hg : df.getCol "ід" with
      | none => rfl
      | some c => simp [DataFrame.hasCol, hg] at hid
    simp [run_dashboard_init, hok, backfill_display, hname, hgid]

/-- Closed witness for the startup theorem: a missing file falls back
to the synthetic dataset with a warning that carries the reason. -/
theorem run_dashboard_init_spec_witness :
    run_dashboard_init (Except.error "FileNotFoundError")
        (fun _ => Except.ok ⟨fun _ => [], fun _ => [], fun _ => 0, []⟩)
        (fun _ _ => 0) =
      Except.ok ⟨generate_random_data 120 (fun _ _ => 0),
        ⟨fun _ => [], fun _ => [], fun _ => 0, []⟩, "випадкові дані",
        [UIEffect.showWarning warnTitle (warnMsg "FileNotFoundError")]⟩ := by
  exact ((run_dashboard_init_spec (Except.error "FileNotFoundError")
      (fun _ => Except.ok ⟨fun _ => [], fun _ => [], fun _ => 0, []⟩)
      (fun _ _ => 0)).1 "FileNotFoundError" rfl).1
    ⟨fun _ => [], fun _ => [], fun _ => 0, []⟩ rfl

/-- C1 counterexample: a CSV that loads and fits successfully but lacks
both the name and the id column terminates startup with an uncaught
KeyError — a startup-fatal case that is not a synthetic-fit failure. -/
theorem run_dashboard_init_fatal_counterexample :
    run_dashboard_init
        (Except.ok (DataFrame.mk
          (requiredCols.map (fun c => (c, ⟨Dtype.numeric, [Value.num 1]⟩)))))
        (fun _ => Except.ok ⟨fun _ => [], fun _ => [], fun _ => 0, []⟩)
        (fun _ _ => 0) =
      Except.error "KeyError: ід" := by
  rfl

lemma mem_insertStr {y x : String} {l : List String} :
    y ∈ insertStr x l ↔ y = x ∨ y ∈ l := by
  induction l with
  | nil => simp [insertStr]
  | cons a t ih =>
    rcases hcmp : compare x a with _ | _ | _ <;>
      simp [insertStr, hcmp, List.mem_cons, ih]
    all_goals tauto

lemma mem_sortedDedup {l : List String} :
    ∀ y, y ∈ sortedDedup l ↔ y ∈ l := by
  induction l with
  | nil => intro y; simp [sortedDedup]
  | cons a t ih =>
    intro y
    simp only [sortedDedup, List.foldr] at ih ⊢
    by_cases h : a ∈ t.foldr (fun x acc => if x ∈ acc then acc else insertStr x acc) []
    · rw [if_pos h]
      have hat : a ∈ t := (ih a).mp h
      rw [ih y, List.mem_cons]
      constructor
      · exact Or.inr
      · rintro (rfl | hyt)
        · exact hat
        · exact hyt
    · rw [if_neg h, mem_insertStr, ih y, List.mem_cons]

lemma kmPairs_length (labels : List String) (durs evs : List ℚ) (l : String)
    (h1 : labels.length = durs.length) (h2 : durs.length = evs.length) :
    (kmPairs labels durs evs l).length = labels.count l := by
  induction labels generalizing durs evs with
  | nil => simp [kmPairs]
  | cons a t ih =>
    cases durs with
    | nil => simp at h1
    | cons d dt =>
      cases evs with
      | nil => simp at h2
      | cons e et =>
        have h1x : t.length = dt.length := by simpa using h1
        have h2x : dt.length = et.length := by simpa using h2
        by_cases hal : a = l
        · simp [kmPairs, hal, List.count_cons, ih dt et h1x h2x]
        · simp [kmPairs, hal, List.count_cons, ih dt et h1x h2x]

lemma kmPairs_ne_nil (labels : List String) (durs evs : List ℚ) (l : String)
    (h1 : labels.length = durs.length) (h2 : durs.length = evs.length) :
    (kmPairs labels durs evs l ≠ [] ↔ l ∈ labels) := by
  rw [← List.length_pos_iff_ne_nil, kmPairs_length labels durs evs l h1 h2]
  exact List.count_pos_iff

lemma map_str_toStr (l : List String) :
    (l.map Value.str).map Value.toStr = l := by
  rw [List.map_map]
  exact List.map_id'' (fun s => rfl) l

lemma lookupCol_setColList_self (l : List (String × Column)) (n : String) (c : Column) :
    lookupCol (setColList l n c) n = some c := by
  induction l with
  | nil => simp [setColList, lookupCol]
  | cons p t ih =>
    by_cases h : p.1 = n
    · simp [setColList, h, lookupCol]
    · simp [setColList, h, lookupCol, ih]

lemma lookupCol_setColList_ne (l : List (String × Column)) (n m : String) (c : Column)
    (h : n ≠ m) : lookupCol (setColList l n c) m = lookupCol l m := by
  induction l with
  | nil => simp [setColList, lookupCol, h]
  | cons p t ih =>
    by_cases hp : p.1 = n
    · have hpm : ¬p.1 = m := by rw [hp]; exact h
      simp only [setColList, if_pos hp, lookupCol, if_neg hpm]
      rw [if_neg (show ¬(n, c).1 = m from h)]
    · simp only [setColList, if_neg hp, lookupCol]
      by_cases hm : p.1 = m
      · rw [if_pos hm, if_pos hm]
      · rw [if_neg hm, if_neg hm, ih]

/-- C3: for a dataset with the chosen grouping column present, the
group labels follow the claim's branching (quantile tertiles labeled
Low/Medium/High for a numeric column with more than 3 distinct values,
stringified literal values otherwise); the grouped-survival output
contains exactly one curve per label that actually occurs, that curve
is the Kaplan-Meier fit of that group's (duration, event) pairs, every
emitted curve has a non-empty group, and each group holds exactly the
rows bearing its label. -/
theorem group_survival_spec (df : DataFrame) (var : String)
    (kmfit : List (ℚ × ℚ) → List (ℚ × ℚ)) (c : Column)
    (hc : df.getCol var = some c)
    (h1 : (groupAssign c).length = (df.colRats DURATION_COL).length)
    (h2 : (df.colRats DURATION_COL).length = (df.colRats EVENT_COL).length) :
    ((isNumericDtype c.dtype = true ∧ 3 < nuniqueVals c.vals) →
      groupAssign c = qcut3Assign (c.vals.map valueToRat)) ∧
    (¬(isNumericDtype c.dtype = true ∧ 3 < nuniqueVals c.vals) →
      groupAssign c = c.vals.map Value.toStr) ∧
    (∀ l curve, ((l, curve) ∈ group_survival df var kmfit ↔
      (l ∈ groupAssign c ∧ curve = kmfit (groupPairs df c l)))) ∧
    (∀ l curve, (l, curve) ∈ group_survival df var kmfit → groupPairs df c l ≠ []) ∧
    (∀ l, (groupPairs df c l).length = (groupAssign c).count l) := by
  have hdur : (df.setCol "_group"
      ⟨Dtype.object, (groupAssign c).map Value.str⟩).colRats DURATION_COL =
      df.colRats DURATION_COL := by
    simp only [DataFrame.colRats, DataFrame.getCol, DataFrame.setCol]
    rw [lookupCol_setColList_ne df.cols "_group" DURATION_COL _ (by decide)]
  have hev : (df.setCol "_group"
      ⟨Dtype.object, (groupAssign c).map Value.str⟩).colRats EVENT_COL =
      df.colRats EVENT_COL := by
    simp only [DataFrame.colRats, DataFrame.getCol, DataFrame.setCol]
    rw [lookupCol_setColList_ne df.cols "_group" EVENT_COL _ (by decide)]
  have hgs : group_survival df var kmfit =
      (sortedDedup (groupAssign c)).filterMap (fun l =>
        if (kmPairs (groupAssign c) (df.colRats DURATION_COL)
            (df.colRats EVENT_COL) l).isEmpty then none
        else some (l, kmfit (kmPairs (groupAssign c) (df.colRats DURATION_COL)
            (df.colRats EVENT_COL) l))) := by
    show kmCurves (assignGroupCol df var) kmfit = _
    rw [assignGroupCol, hc]
    show kmCurves (df.setCol "_group" ⟨Dtype.object, (groupAssign c).map Value.str⟩) kmfit = _
    rw [kmCurves]
    rw [show (df.setCol "_group"
        ⟨Dtype.object, (groupAssign c).map Value.str⟩).getCol "_group" =
        some ⟨Dtype.object, (groupAssign c).map Value.str⟩ from
      lookupCol_setColList_self df.cols "_group" _]
    simp only [hdur, hev, map_str_toStr]
  have h2len : (groupAssign c).length = (df.colRats EVENT_COL).length := h1.trans h2
  refine ⟨fun h => by simp [groupAssign, h], fun h => by simp [groupAssign, h], ?_, ?_, ?_⟩
  · intro l curve
    rw [hgs, List.mem_filterMap]
    constructor
    · rintro ⟨a, ha, hfa⟩
      by_cases hie : (kmPairs (groupAssign c) (df.colRats DURATION_COL)
          (df.colRats EVENT_COL) a).isEmpty
      · rw [if_pos hie] at hfa; cases hfa
      · rw [if_neg hie] at hfa
        injection hfa with hpair
        cases hpair
        exact ⟨(mem_sortedDedup _).mp ha, rfl⟩
    · rintro ⟨hl, rfl⟩
      refine ⟨l, (mem_sortedDedup l).mpr hl, ?_⟩
      have hne : kmPairs (groupAssign c) (df.colRats DURATION_COL)
          (df.colRats EVENT_COL) l ≠ [] :=
        (kmPairs_ne_nil _ _ _ l h1 h2).mpr hl
      rw [if_neg (by simpa [List.isEmpty_iff] using hne)]
      rfl
  · intro l curve hmem
    rw [hgs, List.mem_filterMap] at hmem
    obtain ⟨a, ha, hfa⟩ := hmem
    by_cases hie : (kmPairs (groupAssign c) (df.colRats DURATION_COL)
        (df.colRats EVENT_COL) a).isEmpty
    · rw [if_pos hie] at hfa; cases hfa
    · rw [if_neg hie] at hfa
      injection hfa with hpair
      have hal : a = l := congrArg Prod.fst hpair
      subst hal
      simpa [groupPairs, List.isEmpty_iff] using hie
  · intro l
    exact kmPairs_length _ _ _ l h1 h2

/-- Closed witness for the grouped-survival theorem: a two-row frame
grouped by a constant load column groups both rows under the
stringified value 5, and the identity Kaplan-Meier parameter exposes
that group's (duration, event) pairs. -/
theorem group_survival_spec_witness :
    ("5", [((10 : ℚ), (1 : ℚ)), (20, 0)]) ∈
      group_survival
        (DataFrame.mk
          [("тривалість", ⟨Dtype.numeric, [Value.num 10, Value.num 20]⟩),
           ("подія", ⟨Dtype.numeric, [Value.num 1, Value.num 0]⟩),
           ("навантаження_мвт", ⟨Dtype.numeric, [Value.num 5, Value.num 5]⟩)])
        "навантаження_мвт" (fun l => l) := by
  have h := (group_survival_spec
      (DataFrame.mk
        [("тривалість", ⟨Dtype.numeric, [Value.num 10, Value.num 20]⟩),
         ("подія", ⟨Dtype.numeric, [Value.num 1, Value.num 0]⟩),
         ("навантаження_мвт", ⟨Dtype.numeric, [Value.num 5, Value.num 5]⟩)])
      "навантаження_мвт" (fun l => l)
      ⟨Dtype.numeric, [Value.num 5, Value.num 5]⟩ rfl (by decide) (by decide)).2.2.1
      "5" [((10 : ℚ), (1 : ℚ)), (20, 0)]
  exact h.mpr ⟨by decide, by decide⟩

lemma dropColList_setColList (l : List (String × Column)) (n : String) (c : Column) :
    dropColList (setColList l n c) n = dropColList l n := by
  induction l with
  | nil => simp [setColList, dropColList]
  | cons p t ih =>
    by_cases hp : p.1 = n
    · simp [setColList, hp, dropColList]
    · simp [setColList, hp, dropColList, ih]

lemma dropCol_assignGroupCol (df : DataFrame) (var : String) :
    (assignGroupCol df var).dropCol "_group" = df.dropCol "_group" := by
  unfold assignGroupCol
  cases hg : df.getCol var with
  | none => rfl
  | some c => simp [DataFrame.setCol, DataFrame.dropCol, dropColList_setColList]

lemma mem_fst_setColList (l : List (String × Column)) (n : String) (c : Column) :
    n ∈ (setColList l n c).map Prod.fst := by
  induction l with
  | nil => simp [setColList]
  | cons p t ih =>
    by_cases hp : p.1 = n
    · simp [setColList, hp]
    · simp [setColList, hp, ih]

lemma update_views_df (st : AppState) (i : Nat) (idx : Int) :
    ((update_views st i idx).1.df).dropCol "_group" = st.df.dropCol "_group" := by
  unfold update_views
  by_cases h : st.df.hasCol st.groupVar = false ∧ st.groupableVars.isEmpty = true
  · rw [if_pos h]
  · rw [if_neg h]
    exact dropCol_assignGroupCol st.df (resolvedGroupVar st)

lemma update_views_objVar (st : AppState) (i : Nat) (idx : Int) :
    ((update_views st i idx).1).objVar = st.objVar := by
  unfold update_views
  by_cases h : st.df.hasCol st.groupVar = false ∧ st.groupableVars.isEmpty = true
  · rw [if_pos h]
  · rw [if_neg h]

lemma update_dashboard_df (st : AppState) :
    ((update_dashboard st).1.df).dropCol "_group" = st.df.dropCol "_group" := by
  unfold update_dashboard
  rcases hobj : st.objVar with _ | i
  · dsimp only
    split
    · rfl
    · exact update_views_df _ _ _
  · dsimp only
    split
    · rfl
    · exact update_views_df _ _ _

lemma update_dashboard_objVar_some (st : AppState) (i : Int) (h : st.objVar = some i) :
    ((update_dashboard st).1).objVar = some i := by
  unfold update_dashboard
  rw [h]
  dsimp only
  split
  · exact h
  · rw [update_views_objVar]
    exact h

/-- C2 (amended): regenerate replaces the dataset wholesale with the
fresh synthetic frame, and recompute touches the dataset only through
the scratch group column — every other column is left unchanged, as are
the datasets of the id-selection and details-toggle handlers.  However
the scratch column is user-visible: once a recompute reaches the
grouped view, the full-record detail panel (which prints every column
of the selected row) lists the scratch group column. -/
theorem dataset_mutation_spec :
    (∀ st : AppState, ((update_dashboard st).1.df).dropCol "_group" = st.df.dropCol "_group") ∧
    (∀ st : AppState, (on_id_change st).df = st.df) ∧
    (∀ st : AppState, (toggle_details st).df = st.df) ∧
    (∀ (rand : Nat → String → ℚ) (m : FittedModel) (st : AppState),
      ((regenerate_data rand m st).1.df).dropCol "_group" =
        (generate_random_data 150 rand).dropCol "_group") ∧
    (∀ (st : AppState) (i : Int), st.objVar = some i → 0 ≤ i → i < (st.df.nrows : Int) →
      st.df.hasCol (resolvedGroupVar st) = true →
      "_group" ∈ ((update_dashboard st).1.detailsPanel).map Prod.fst) := by
  refine ⟨update_dashboard_df, ?_, fun st => rfl, ?_, ?_⟩
  · intro st
    unfold on_id_change
    by_cases h : st.df.hasCol "ід"
    · rw [if_pos h]
      cases hfind : (match st.df.getCol "ід" with
        | none => none
        | some c => (c.vals.map Value.toStr).findIdx? (fun s => s == st.idVar)) with
      | none => rfl
      | some i => rfl
    · rw [if_neg h]
  · intro rand m st
    unfold regenerate_data
    rw [update_dashboard_df]
  · intro st i hobj h0 hlt hv
    have hnotrange : ¬(i < 0 ∨ (st.df.nrows : Int) ≤ i) := by omega
    have hred : update_dashboard st = update_views st i.toNat i := by
      unfold update_dashboard
      rw [hobj, if_neg hnotrange]
    rw [hred]
    have hbranch : ¬(st.df.hasCol st.groupVar = false ∧ st.groupableVars.isEmpty = true) := by
      rintro ⟨hgv, hge⟩
      have : resolvedGroupVar st = st.groupVar := by
        unfold resolvedGroupVar
        rw [if_neg (by simp [hgv])]
        cases hg : st.groupableVars with
        | nil => rfl
        | cons a t => rw [hg] at hge; cases hge
      rw [this, hgv] at hv
      cases hv
    unfold update_views
    rw [if_neg hbranch]
    show "_group" ∈ ((fullRowPanel (assignGroupCol st.df (resolvedGroupVar st)) i.toNat).map Prod.fst)
    obtain ⟨c, hc⟩ := Option.isSome_iff_exists.mp hv
    unfold assignGroupCol
    rw [hc]
    have hmem : "_group" ∈ ((st.df.setCol "_group"
        ⟨Dtype.object, (groupAssign c).map Value.str⟩).cols).map Prod.fst :=
      mem_fst_setColList st.df.cols "_group" _
    simpa [fullRowPanel, List.map_map, Function.comp] using hmem

/-- Closed witness for the dataset-mutation theorem: a concrete
recompute leaves the non-scratch columns untouched and shows the
scratch column in the detail panel. -/
theorem dataset_mutation_spec_witness :
    ((update_dashboard (fixtureState fixtureFullDf (some 0) "навантаження_мвт")).1.df).dropCol
        "_group" =
      (fixtureState fixtureFullDf (some 0) "навантаження_мвт").df.dropCol "_group" ∧
    "_group" ∈
      ((update_dashboard (fixtureState fixtureFullDf (some 0)
        "навантаження_мвт")).1.detailsPanel).map Prod.fst := by
  exact ⟨dataset_mutation_spec.1 _,
    dataset_mutation_spec.2.2.2.2 (fixtureState fixtureFullDf (some 0) "навантаження_мвт") 0
      rfl (by decide) (by decide) (by decide)⟩

/-- C2 counterexample: the scratch group column is user-visible state —
on a schema-complete frame that starts without it, one recompute makes
it appear in the full-record detail panel. -/
theorem scratch_group_visible_counterexample :
    ("_group" ∉ fixtureFullDf.colNames) ∧
    "_group" ∈
      ((update_dashboard (fixtureState fixtureFullDf (some 0)
        "навантаження_мвт")).1.detailsPanel).map Prod.fst := by
  decide

/-- C7: an out-of-range selected index (negative or at least the
dataset length) surfaces the error dialog and returns with the whole
session state — every view included — unchanged. -/
theorem index_error_spec (st : AppState) (i : Int)
    (h : st.objVar = some i) (hrange : i < 0 ∨ (st.df.nrows : Int) ≤ i) :
    update_dashboard st = (st, [UIEffect.showError "Помилка" (errIndexMsg i)]) := by
  unfold update_dashboard
  rw [h, if_pos hrange]

/-- Closed witness for the index-error theorem at index 5 of a two-row
dataset. -/
theorem index_error_spec_witness :
    update_dashboard (fixtureState fixtureDf (some 5) "навантаження_мвт") =
      (fixtureState fixtureDf (some 5) "навантаження_мвт",
        [UIEffect.showError "Помилка" (errIndexMsg 5)]) :=
  index_error_spec (fixtureState fixtureDf (some 5) "навантаження_мвт") 5 rfl (by decide)

/-- C10: an unparseable selection value does not fail the recompute: it
is replaced by 0, written back into the selection state, and the whole
recompute behaves exactly as a recompute with selection 0. -/
theorem invalid_selection_spec (st : AppState) (h : st.objVar = none) :
    update_dashboard st = update_dashboard { st with objVar := some 0 } ∧
    ((update_dashboard st).1).objVar = some 0 := by
  have heq : update_dashboard st = update_dashboard { st with objVar := some 0 } := by
    unfold update_dashboard
    rw [h]
  refine ⟨heq, ?_⟩
  rw [heq]
  exact update_dashboard_objVar_some { st with objVar := some 0 } 0 rfl

/-- Closed witness for the invalid-selection theorem on a concrete
state with an unparseable selection. -/
theorem invalid_selection_spec_witness :
    update_dashboard (fixtureState fixtureDf none "навантаження_мвт") =
      update_dashboard
        { fixtureState fixtureDf none "навантаження_мвт" with objVar := some 0 } ∧
    ((update_dashboard (fixtureState fixtureDf none "навантаження_мвт")).1).objVar =
      some 0 :=
  invalid_selection_spec (fixtureState fixtureDf none "навантаження_мвт") rfl

end EnergyRisk
